import Mathlib

/-!
Verification of the jira2py request gateway (`src/jira2py/jira_base.py`).

The Python module is shallowly embedded below.  Python dictionaries whose
values are JSON-like objects become association lists over `PyVal`; Python
`None` is `PyVal.none` inside payload mappings and `Option.none` for absent
arguments; exceptions become the `PyError` sum returned through `Except`;
the stateful retry loop of `_request_jira` becomes the recursive function
`requestLoop`, with the HTTP transport (`session.request`) abstracted as a
function from the request arguments and the attempt index to an outcome, and
the draw of `random.uniform` passed in explicitly as a `jitter` argument.
Seconds are modelled as rationals.
-/

namespace Jira2py

/-- A Python/JSON value as it appears in request payloads and decoded
response bodies: `None`, booleans, numbers, strings, lists and dicts. -/
inductive PyVal where
  | none
  | bool (b : Bool)
  | int (n : Int)
  | str (s : String)
  | list (xs : List PyVal)
  | dict (kvs : List (String × PyVal))

/-- Python `v is not None` test used by `_filter_none_values`. -/
def PyVal.isNone : PyVal → Bool
  | .none => true
  | _ => false

/-- The exceptions that can cross the boundaries modelled here.
`jiraAuthenticationError`, `jiraRateLimitError` and `jiraRequestError` are
the classes of `exceptions.py` (all direct subclasses of `JiraBaseError`,
which extends `Exception`); `valueError` is Python's `ValueError` raised by
`_build_api_url`; `pydanticValidationError` is the `pydantic.ValidationError`
raised by the `@validate_call` wrapper of `JiraBase.__init__`;
`requestException` is `requests.exceptions.RequestException` (a network-level
failure); `jsonDecodeError` is the `requests` JSON decode error, which is a
subclass of `RequestException`. -/
inductive PyError where
  | jiraAuthenticationError (msg : String)
  | jiraRateLimitError (msg : String)
  | jiraRequestError (msg : String)
  | valueError (msg : String)
  | pydanticValidationError (msg : String)
  | requestException (msg : String)
  | jsonDecodeError (msg : String)
deriving DecidableEq

/-- Python `str(e)` on the exceptions above: the message they carry. -/
def PyError.message : PyError → String
  | .jiraAuthenticationError m => m
  | .jiraRateLimitError m => m
  | .jiraRequestError m => m
  | .valueError m => m
  | .pydanticValidationError m => m
  | .requestException m => m
  | .jsonDecodeError m => m

/-! ### Python string primitives

`str.strip()` / `str.strip(chars)` / `str.rstrip(chars)` remove every
leading/trailing character satisfying the predicate. -/

/-- Remove all trailing characters satisfying `p` from a character list. -/
def dropTrailingWhile (p : Char → Bool) (l : List Char) : List Char :=
  (l.reverse.dropWhile p).reverse

/-- Python `s.strip(chars)`: drop all leading and trailing characters
satisfying `p`. -/
def pyStripBoth (p : Char → Bool) (s : String) : String :=
  ⟨dropTrailingWhile p (s.data.dropWhile p)⟩

/-- Python `s.rstrip(chars)`: drop all trailing characters satisfying `p`. -/
def pyRStrip (p : Char → Bool) (s : String) : String :=
  ⟨dropTrailingWhile p s.data⟩

/-- The separator character of API paths. -/
def isSlash (c : Char) : Bool := c == '/'

/-- Python `s.strip("/")` as used on context paths. -/
def stripSlashes (s : String) : String := pyStripBoth isSlash s

/-- Python `s.rstrip("/")` as used on the base URL. -/
def rstripSlashes (s : String) : String := pyRStrip isSlash s

/-- Python `s.strip()` (whitespace strip) as used by the emptiness check of
`_build_api_url`. -/
def stripWs (s : String) : String := pyStripBoth Char.isWhitespace s

/-! ### Module constants (`jira_base.py`, lines 20-31) -/

def HTTP_OK : Nat := 200
def HTTP_NO_CONTENT : Nat := 204
def HTTP_TOO_MANY_REQUESTS : Nat := 429
def DEFAULT_JITTER_MIN : ℚ := 7 / 10
def DEFAULT_JITTER_MAX : ℚ := 13 / 10
def API_VERSION : String := "3"
def RETRY_AFTER_HEADER : String := "Retry-After"
def BETA_RETRY_AFTER_HEADER : String := "Beta-Retry-After"

/-! ### URL building -/

/-- Embedding of `JiraBase._get_jira_url`:
`raw_url = str(jira_url) if jira_url else os.getenv("JIRA_URL", "")` followed
by `raw_url.rstrip("/")`.  The pydantic `HttpUrl`-to-string conversion is
modelled as the identity on the underlying string; the environment lookup is
passed in explicitly as `envJiraUrl`. -/
def getJiraUrl (jiraUrl : Option String) (envJiraUrl : Option String) : String :=
  let rawUrl := match jiraUrl with
    | some u => u
    | none => envJiraUrl.getD ""
  rstripSlashes rawUrl

/-- Embedding of `JiraBase._build_api_url`: reject a `context_path` that is
empty or whitespace-only (`not context_path or not context_path.strip()`)
with `ValueError("context_path cannot be empty")`, otherwise join
`f"{jira_url}/rest/api/{API_VERSION}/{context_path.strip('/')}"`. -/
def buildApiUrl (jiraUrl : String) (contextPath : String) : Except PyError String :=
  if contextPath = "" || stripWs contextPath = "" then
    .error (.valueError "context_path cannot be empty")
  else
    .ok (jiraUrl ++ "/rest/api/" ++ API_VERSION ++ "/" ++ stripSlashes contextPath)

/-- The URL-builder component as seen by a caller holding a base URL and a
path: the composition of `_get_jira_url` (applied to the base) with
`_build_api_url`. -/
def buildUrl (base path : String) : Except PyError String :=
  buildApiUrl (getJiraUrl (some base) none) path

/-! ### Payload filtering and the transmitted request arguments -/

/-- Embedding of `JiraBase._filter_none_values`:
`{k: v for k, v in data.items() if v is not None}` on a present dict, `None`
passed through. -/
def filterNoneValues (data : Option (List (String × PyVal))) :
    Option (List (String × PyVal)) :=
  match data with
  | none => none
  | some d => some (d.filter (fun kv => ! kv.2.isNone))

/-- The arguments handed to `session.request` by `_request_jira`. -/
structure RequestArgs where
  method : String
  url : String
  params : Option (List (String × PyVal))
  /-- The body payload: `some d` models the JSON text `json.dumps d`,
  `none` models `data=None` (no payload). -/
  data : Option (List (String × PyVal))

/-- Embedding of `_request_jira` lines 297-309: the arguments passed to
`session.request`.  `params` is `self._filter_none_values(params)`; `data` is
`json.dumps(filtered_data) if filtered_data else None`, where a filtered dict
that is empty is falsy and therefore transmitted as `None`. -/
def sessionRequestArgs (method url : String)
    (params data : Option (List (String × PyVal))) : RequestArgs :=
  { method := method
    url := url
    params := filterNoneValues params
    data :=
      match filterNoneValues data with
      | some fd => if fd.isEmpty then none else some fd
      | none => none }

/-! ### Retry delay -/

/-- Numeric value of a list of decimal digit characters. -/
def digitsToNat (cs : List Char) : Nat :=
  cs.foldl (fun a c => a * 10 + (c.toNat - 48)) 0

/-- Model of Python `float(s)` restricted to finite decimal literals
(optional sign, integer digits, optional fractional part): `none` models the
`ValueError` branch of `_calculate_retry_delay`.  Exponent, infinity and NaN
forms of CPython's parser are outside the inputs exercised here. -/
def pyFloat? (s : String) : Option ℚ :=
  let signBody : ℚ × List Char :=
    match s.data with
    | '-' :: r => (-1, r)
    | '+' :: r => (1, r)
    | cs => (1, cs)
  let sgn := signBody.1
  let body := signBody.2
  let intPart := body.takeWhile Char.isDigit
  let rest := body.dropWhile Char.isDigit
  match rest with
  | [] =>
    if intPart.isEmpty then none
    else some (sgn * (digitsToNat intPart : ℚ))
  | '.' :: frac =>
    if frac.all Char.isDigit && !(intPart.isEmpty && frac.isEmpty) then
      some (sgn * ((digitsToNat intPart : ℚ) +
        (digitsToNat frac : ℚ) / (10 : ℚ) ^ frac.length))
    else none
  | _ => none

/-- Embedding of `JiraBase._calculate_retry_delay`.  A truthy
`retry_after_header` (present and non-empty) that parses as a float is
returned verbatim; otherwise the delay is
`min(initial_retry_delay * 2**retry_count, max_retry_delay)` multiplied by
the jitter factor, where `jitter` stands for the concrete draw of
`random.uniform(DEFAULT_JITTER_MIN, DEFAULT_JITTER_MAX)`. -/
def calculateRetryDelay (initialRetryDelay maxRetryDelay : ℚ) (retryCount : Nat)
    (retryAfterHeader : Option String) (jitter : ℚ) : ℚ :=
  let hinted : Option ℚ :=
    match retryAfterHeader with
    | some h => if h = "" then none else pyFloat? h
    | none => none
  match hinted with
  | some v => v
  | none => min (initialRetryDelay * 2 ^ retryCount) maxRetryDelay * jitter

/-! ### Responses and their classification -/

/-- An HTTP response as consumed by the gateway: status code, headers, body
text, and `jsonBody` modelling the outcome of `response.json()` (`none` when
the body is not valid JSON, in which case `.json()` raises). -/
structure Response where
  status : Nat
  headers : List (String × String)
  text : String
  jsonBody : Option PyVal

/-- `response.headers.get(name)` (exact-name lookup; the canonical header
names used by the source are matched verbatim). -/
def headersGet (headers : List (String × String)) (name : String) : Option String :=
  (headers.find? (fun kv => kv.1 == name)).map (fun kv => kv.2)

/-- Embedding of `JiraBase._handle_response`: `200` returns the decoded JSON
body, `204` returns `True` (modelled as `PyVal.bool true`, the same Python
value), anything else raises
`JiraRequestError(f"Jira API error: status_code={...}, message={...}")`. -/
def handleResponse (r : Response) : Except PyError PyVal :=
  if r.status = HTTP_OK then
    match r.jsonBody with
    | some v => .ok v
    | none => .error (.jsonDecodeError "Expecting value")
  else if r.status = HTTP_NO_CONTENT then
    .ok (.bool true)
  else
    .error (.jiraRequestError
      ("Jira API error: status_code=" ++ toString r.status ++
        ", message=" ++ r.text))

/-- Message of the `JiraRateLimitError` raised when the retry budget is
exhausted (`_request_jira`, lines 319-322). -/
def rateLimitMessage (r : Response) : String :=
  "Max retries exceeded for rate-limited request. " ++
    "Jira API error: status_code=" ++ toString r.status ++
    ", message=" ++ r.text

/-- The two `except` clauses closing the `while` body of `_request_jira`:
with raw-response mode the exception is re-raised verbatim; otherwise a
`RequestException` (network failures and the requests JSON decode error) is
wrapped as `JiraRequestError(f"Request error: {e}")` and every other
exception - including the gateway's own `JiraRateLimitError` and the
`JiraRequestError` raised by `_handle_response`, both plain `Exception`
subclasses - is wrapped as `JiraRequestError(f"Unexpected error: {e}")`. -/
def exceptWrap (rawResponse : Bool) (e : PyError) : PyError :=
  if rawResponse then e
  else
    match e with
    | .requestException m => .jiraRequestError ("Request error: " ++ m)
    | .jsonDecodeError m => .jiraRequestError ("Request error: " ++ m)
    | e => .jiraRequestError ("Unexpected error: " ++ e.message)

/-- One outcome of a transport call: a response, or a raised
`requests.exceptions.RequestException`. -/
inductive TransportStep where
  | resp (r : Response)
  | requestException (msg : String)

/-- What `_request_jira` hands back: a classified value, or - in raw-response
mode - the unclassified response object. -/
inductive SendResult where
  | value (v : PyVal)
  | raw (r : Response)

/-- Embedding of the `while True` loop of `_request_jira` (lines 302-340).
The transport is a function from the attempt index to that attempt's
outcome; `jitter` gives the `random.uniform` draw of each retry.  The loop
counter is reindexed for structural recursion: `remaining` stands for
`max_retries - retry_count`, so the Python guard `retry_count >=
self._max_retries` is exactly `remaining = 0`.  The result carries the value
or wrapped exception, the number of HTTP attempts issued, and the list of
delays slept. -/
def requestLoop (rawResponse : Bool) (initialRetryDelay maxRetryDelay : ℚ)
    (transport : Nat → TransportStep) (jitter : Nat → ℚ) :
    Nat → Nat → Nat → Except PyError SendResult × Nat × List ℚ
  | attempt, retryCount, remaining =>
    match transport attempt with
    | .requestException msg =>
      (.error (exceptWrap rawResponse (.requestException msg)), attempt + 1, [])
    | .resp r =>
      if rawResponse then
        (.ok (.raw r), attempt + 1, [])
      else if r.status = HTTP_TOO_MANY_REQUESTS then
        match remaining with
        | 0 =>
          (.error (exceptWrap rawResponse (.jiraRateLimitError (rateLimitMessage r))),
            attempt + 1, [])
        | remaining' + 1 =>
          let delay := calculateRetryDelay initialRetryDelay maxRetryDelay
            retryCount (headersGet r.headers "Retry-After") (jitter retryCount)
          let rest := requestLoop rawResponse initialRetryDelay maxRetryDelay
            transport jitter (attempt + 1) (retryCount + 1) remaining'
          (rest.1, rest.2.1, delay :: rest.2.2)
      else
        match handleResponse r with
        | .ok v => (.ok (.value v), attempt + 1, [])
        | .error e => (.error (exceptWrap rawResponse e), attempt + 1, [])

/-- Embedding of `JiraBase._request_jira`: build the URL (a `ValueError`
from `_build_api_url` propagates before any transport call), compute the
transmitted arguments, then run the retry loop with `retry_count = 0`, i.e.
`remaining = max_retries`. -/
def requestJira (rawResponse : Bool) (maxRetries : Nat)
    (initialRetryDelay maxRetryDelay : ℚ) (jiraUrl : String)
    (method : String) (contextPath : String)
    (params data : Option (List (String × PyVal)))
    (transport : RequestArgs → Nat → TransportStep) (jitter : Nat → ℚ) :
    Except PyError SendResult × Nat × List ℚ :=
  match buildApiUrl jiraUrl contextPath with
  | .error e => (.error e, 0, [])
  | .ok url =>
    requestLoop rawResponse initialRetryDelay maxRetryDelay
      (transport (sessionRequestArgs method url params data)) jitter
      0 0 maxRetries

/-! ### Transport session lifecycle

`self._session : Optional[requests.Session]` is a mutable optional handle.
Distinct `requests.Session()` objects are modelled by numbering them:
`nextId` is the number the next freshly constructed session will get, so a
fresh session is never equal to a previously live one. -/

/-- The session-related state of a `JiraBase` instance. -/
structure SessionState where
  session : Option Nat
  nextId : Nat

/-- Embedding of `JiraBase.close`: if a session is present, close it and set
the handle back to `None`; otherwise do nothing. -/
def closeSession (c : SessionState) : SessionState :=
  match c.session with
  | some _ => { session := none, nextId := c.nextId }
  | none => c

/-- Embedding of `JiraBase._ensure_session`: return the live session if
present, else construct a fresh one and store it.  (Auth, headers and
adapter configuration on the new session carry no state observed here.) -/
def ensureSession (c : SessionState) : Nat × SessionState :=
  match c.session with
  | some s => (s, c)
  | none => (c.nextId, { session := some c.nextId, nextId := c.nextId + 1 })

/-- Embedding of `JiraBase.__exit__`: it ignores the exception triple and
always calls `close`. -/
def exitClient (c : SessionState) : SessionState := closeSession c

/-- A `with` block on the client: `__enter__` runs `_ensure_session`, the
body runs with the acquired handle and may finish with a value or with an
exception (`Except.error`), and `__exit__` runs on either exit path. -/
def withClient (c : SessionState)
    (body : Nat → SessionState → Except String PyVal × SessionState) :
    Except String PyVal × SessionState :=
  let entered := ensureSession c
  let r := body entered.1 entered.2
  (r.1, exitClient r.2)

/-- Invariant of the session numbering: any live session was allocated
before `nextId`.  It holds for the fresh client (`session = none`) and is
preserved by `ensureSession` and `closeSession`. -/
def SessionWF (c : SessionState) : Prop :=
  ∀ h, c.session = some h → h < c.nextId

/-! ### Construction (`JiraBase.__init__` and `_validate_credentials`) -/

/-- Model of the syntactic acceptance of pydantic `HttpUrl`: an absolute URL
with scheme `http` or `https` and a nonempty remainder. -/
def isValidHttpUrl (s : String) : Bool :=
  ("http://".data.isPrefixOf s.data && s.data.length > 7) ||
    ("https://".data.isPrefixOf s.data && s.data.length > 8)

/-- Split a character list at every occurrence of `sep`. -/
def splitChar (sep : Char) : List Char → List (List Char)
  | [] => [[]]
  | c :: cs =>
    let r := splitChar sep cs
    if c == sep then [] :: r
    else
      match r with
      | [] => [[c]]
      | h :: t => (c :: h) :: t

/-- Model of the syntactic acceptance of pydantic `EmailStr`: a nonempty
local part, an `@`, and a nonempty domain containing a period. -/
def isValidEmail (s : String) : Bool :=
  match splitChar '@' s.data with
  | [lp, dom] => !lp.isEmpty && !dom.isEmpty && dom.contains '.'
  | _ => false

/-- Python `a or b` on optional strings: the empty string is falsy. -/
def pyOrStr (a b : Option String) : Option String :=
  match a with
  | some s => if s = "" then b else some s
  | none => b

/-- Python falsiness of an optional string, as tested by
`not all([self._jira_url, self._jira_user, self._jira_api_token])`. -/
def optStrFalsy : Option String → Bool
  | none => true
  | some s => s == ""

/-- The resolved credentials held by a constructed client. -/
structure ClientCreds where
  jiraUrl : String
  jiraUser : String
  jiraApiToken : String

/-- Embedding of `JiraBase.__init__` restricted to credential resolution.
The `@validate_call` wrapper first checks each provided argument against its
annotated type (`HttpUrl | None`, `EmailStr | None`) and raises a pydantic
`ValidationError` on failure, before the body runs; the body then resolves
each credential with its environment fallback and `_validate_credentials`
raises `JiraAuthenticationError` if any resolved credential is falsy. -/
def jiraBaseInit (jiraUrl jiraUser jiraApiToken : Option String)
    (envUrl envUser envToken : Option String) : Except PyError ClientCreds :=
  if ! jiraUrl.all isValidHttpUrl then
    .error (.pydanticValidationError "jira_url is not a valid HTTP URL")
  else if ! jiraUser.all isValidEmail then
    .error (.pydanticValidationError "jira_user is not a valid email address")
  else
    let url := getJiraUrl jiraUrl envUrl
    let user := pyOrStr jiraUser envUser
    let token := pyOrStr jiraApiToken envToken
    if url == "" || optStrFalsy user || optStrFalsy token then
      .error (.jiraAuthenticationError
        ("All JIRA credentials must be provided either as parameters or " ++
          "through environment variables (JIRA_URL, JIRA_USER, JIRA_API_TOKEN)"))
    else
      .ok ⟨url, user.getD "", token.getD ""⟩

/-- Whether a construction outcome is the `JiraAuthenticationError` kind. -/
def isAuthenticationErrorResult : Except PyError ClientCreds → Bool
  | .error (.jiraAuthenticationError _) => true
  | _ => false

/-- A string of `n` separator characters. -/
def repSlash (n : Nat) : String := ⟨List.replicate n '/'⟩

/-! ### Helper lemmas on the string primitives -/

lemma PyVal.isNone_eq_false_iff (v : PyVal) : v.isNone = false ↔ v ≠ PyVal.none := by
  cases v <;> simp [PyVal.isNone]

lemma dropWhile_replicate_append (p : Char → Bool) (c : Char) (hc : p c = true)
    (k : Nat) (l : List Char) :
    List.dropWhile p (List.replicate k c ++ l) = List.dropWhile p l := by
  induction k with
  | zero => simp
  | succ n ih => simp [List.replicate_succ, List.dropWhile_cons, hc, ih]

lemma dropWhile_replicate (p : Char → Bool) (c : Char) (hc : p c = true) (k : Nat) :
    List.dropWhile p (List.replicate k c) = [] := by
  simpa using dropWhile_replicate_append p c hc k []

lemma dropTrailingWhile_append_replicate (p : Char → Bool) (c : Char)
    (hc : p c = true) (l : List Char) (k : Nat) :
    dropTrailingWhile p (l ++ List.replicate k c) = dropTrailingWhile p l := by
  unfold dropTrailingWhile
  rw [List.reverse_append, List.reverse_replicate, dropWhile_replicate_append p c hc]

lemma dropTrailingWhile_eq_nil_iff (p : Char → Bool) (l : List Char) :
    dropTrailingWhile p l = [] ↔ ∀ x ∈ l, p x = true := by
  unfold dropTrailingWhile
  simp [List.dropWhile_eq_nil_iff]

lemma pyStripBoth_eq_empty_iff (p : Char → Bool) (s : String) :
    pyStripBoth p s = "" ↔ ∀ x ∈ s.data, p x = true := by
  rw [String.ext_iff]
  show dropTrailingWhile p (s.data.dropWhile p) = [] ↔ _
  rw [dropTrailingWhile_eq_nil_iff]
  constructor
  · intro hdrop x hx
    rw [← List.takeWhile_append_dropWhile p s.data, List.mem_append] at hx
    rcases hx with hx | hx
    · exact List.mem_takeWhile_imp hx
    · exact hdrop x hx
  · intro hall x hx
    exact hall x ((List.dropWhile_sublist p).subset hx)

lemma stripWs_ne_empty_of_pad (path : String) (i j : Nat)
    (hp : stripWs path ≠ "") :
    stripWs (repSlash i ++ path ++ repSlash j) ≠ "" := by
  intro hcon
  apply hp
  rw [stripWs, pyStripBoth_eq_empty_iff] at hcon ⊢
  intro x hx
  apply hcon
  rw [String.data_append, String.data_append]
  simp only [List.mem_append]
  exact Or.inl (Or.inr hx)

lemma stripSlashes_pad (path : String) (i j : Nat) :
    stripSlashes (repSlash i ++ path ++ repSlash j) = stripSlashes path := by
  apply String.ext
  show dropTrailingWhile isSlash
      (((repSlash i ++ path ++ repSlash j)).data.dropWhile isSlash) =
    dropTrailingWhile isSlash (path.data.dropWhile isSlash)
  rw [String.data_append, String.data_append]
  show dropTrailingWhile isSlash
      (List.dropWhile isSlash
        (List.replicate i '/' ++ path.data ++ List.replicate j '/')) = _
  rw [List.append_assoc, dropWhile_replicate_append isSlash '/' rfl]
  rcases hd : List.dropWhile isSlash path.data with _ | ⟨c, cs⟩
  · rw [List.dropWhile_append, hd]
    simp [dropWhile_replicate isSlash '/' rfl, dropTrailingWhile]
  · rw [List.dropWhile_append, hd]
    simp only [List.isEmpty_cons, Bool.false_eq_true, if_false]
    exact dropTrailingWhile_append_replicate isSlash '/' rfl (c :: cs) j

lemma rstripSlashes_pad (base : String) (k : Nat) :
    rstripSlashes (base ++ repSlash k) = rstripSlashes base := by
  apply String.ext
  show dropTrailingWhile isSlash ((base ++ repSlash k)).data =
    dropTrailingWhile isSlash base.data
  rw [String.data_append]
  exact dropTrailingWhile_append_replicate isSlash '/' rfl base.data k

lemma buildApiUrl_ok (u p : String) (hp : stripWs p ≠ "") :
    buildApiUrl u p =
      .ok (u ++ "/rest/api/" ++ API_VERSION ++ "/" ++ stripSlashes p) := by
  have hne : p ≠ "" := by
    intro h
    subst h
    exact hp rfl
  simp [buildApiUrl, hne, hp]

lemma buildApiUrl_blank (u p : String) (hp : stripWs p = "") :
    buildApiUrl u p = .error (.valueError "context_path cannot be empty") := by
  simp [buildApiUrl, hp]

/-! ### Claims C3, C4, C5, C9 -/

/-- C3: for every query or body mapping, the filtering step applied before
transmission keeps exactly the entries whose value is not the absent-marker
`None` - entries with falsy-but-present values (`false`, `0`, the empty
list) included - as a sub-sequence of the original mapping, and an absent
(`None`) mapping stays absent. -/
theorem filterNoneValues_removes_exactly_none (q : List (String × PyVal))
    (kv : String × PyVal) :
    filterNoneValues none = none ∧
    ∃ fq, filterNoneValues (some q) = some fq ∧ fq.Sublist q ∧
      (kv ∈ fq ↔ kv ∈ q ∧ kv.2 ≠ PyVal.none) := by
  refine ⟨rfl, q.filter (fun kv => ! kv.2.isNone), rfl,
    List.filter_sublist q, ?_⟩
  rw [List.mem_filter]
  simp [PyVal.isNone_eq_false_iff]

/-- C4, counterexample: a body mapping that is empty after absent-marker
filtering is not serialized as the JSON payload of the empty mapping; the
truthiness guard `json.dumps(filtered_data) if filtered_data else None`
treats the empty dict as falsy, so the transmitted payload is absent. -/
theorem emptyBody_transmitted_as_absent :
    (sessionRequestArgs "POST" "https://x.test/rest/api/3/issue" none
      (some [("fields", PyVal.none)])).data = none ∧
    (sessionRequestArgs "POST" "https://x.test/rest/api/3/issue" none
      (some [])).data = none ∧
    (none : Option (List (String × PyVal))) ≠ some [] :=
  ⟨rfl, rfl, by simp⟩

/-- C4, amended: a present-but-empty query mapping is transmitted as-is, but
a body mapping that is empty after filtering is transmitted with no payload
(`data=None`) rather than as the serialized empty mapping, because the
serialization guard treats the empty dict as falsy; a body that is nonempty
after filtering is serialized as-is. -/
theorem sessionRequestArgs_empty_mapping (method url : String)
    (q d fd : List (String × PyVal)) :
    (sessionRequestArgs method url (some []) (some d)).params = some [] ∧
    (filterNoneValues (some d) = some [] →
      (sessionRequestArgs method url (some q) (some d)).data = none) ∧
    (filterNoneValues (some d) = some fd → fd ≠ [] →
      (sessionRequestArgs method url (some q) (some d)).data = some fd) := by
  refine ⟨rfl, ?_, ?_⟩
  · intro h
    simp [sessionRequestArgs, h]
  · intro h hne
    simp [sessionRequestArgs, h, hne]

/-- Witness for C4's amended statement at a concrete body: filtering
`{"a": None, "b": False}` keeps exactly `{"b": False}`, which is nonempty
and transmitted as-is, while `{"a": None}` filters to the empty mapping and
is transmitted with no payload. -/
theorem sessionRequestArgs_empty_mapping_witness :
    (sessionRequestArgs "POST" "https://x.test/rest/api/3/issue" (some [])
      (some [("a", PyVal.none), ("b", PyVal.bool false)])).data =
        some [("b", PyVal.bool false)] ∧
    (sessionRequestArgs "POST" "https://x.test/rest/api/3/issue" (some [])
      (some [("a", PyVal.none)])).data = none := by
  constructor
  · exact (sessionRequestArgs_empty_mapping "POST"
      "https://x.test/rest/api/3/issue" []
      [("a", PyVal.none), ("b", PyVal.bool false)]
      [("b", PyVal.bool false)]).2.2 rfl (by simp)
  · exact (sessionRequestArgs_empty_mapping "POST"
      "https://x.test/rest/api/3/issue" []
      [("a", PyVal.none)] []).2.1 rfl

/-- C5, counterexample: a path composed solely of separator characters is
not rejected - the emptiness check of `_build_api_url` strips whitespace,
not separators, so `"/"` passes it, is stripped to the empty path, and one
HTTP attempt is issued (not zero) against the API version root. -/
theorem slashOnly_path_reaches_transport :
    requestJira false 3 1 60 "https://x.test" "GET" "/" none none
      (fun _ _ => .resp ⟨200, [], "", some (.dict [])⟩) (fun _ => 1) =
      (.ok (.value (.dict [])), 1, []) ∧ (1 : Nat) ≠ 0 :=
  ⟨rfl, by decide⟩

/-- C5, amended: a path that is empty or whitespace-only is rejected by
`send` with the invalid-path error (`ValueError`, the invalid-request kind)
before any transport call - zero HTTP attempts; for every path that survives
that check the retry loop is entered with the URL built from the path with
leading and trailing separators stripped.  (A path of only separators
survives the check; see the counterexample.) -/
theorem requestJira_blank_path_rejected (raw : Bool) (maxR : Nat)
    (init maxd : ℚ) (url method path : String)
    (params data : Option (List (String × PyVal)))
    (transport : RequestArgs → Nat → TransportStep) (jitter : Nat → ℚ) :
    (stripWs path = "" →
      requestJira raw maxR init maxd url method path params data transport jitter =
        (.error (.valueError "context_path cannot be empty"), 0, [])) ∧
    (stripWs path ≠ "" →
      requestJira raw maxR init maxd url method path params data transport jitter =
        requestLoop raw init maxd
          (transport (sessionRequestArgs method
            (url ++ "/rest/api/" ++ API_VERSION ++ "/" ++ stripSlashes path)
            params data))
          jitter 0 0 maxR) := by
  constructor
  · intro hp
    simp [requestJira, buildApiUrl_blank url path hp]
  · intro hp
    simp [requestJira, buildApiUrl_ok url path hp]

/-- Witness for C5's amended statement: the empty and the whitespace-only
path are rejected with zero attempts, and a normal path enters the loop. -/
theorem requestJira_blank_path_rejected_witness :
    stripWs " " = "" ∧
    requestJira false 3 1 60 "https://x.test" "GET" " " none none
      (fun _ _ => .resp ⟨200, [], "", some (.dict [])⟩) (fun _ => 1) =
      (.error (.valueError "context_path cannot be empty"), 0, []) ∧
    requestJira false 3 1 60 "https://x.test" "GET" "" none none
      (fun _ _ => .resp ⟨200, [], "", some (.dict [])⟩) (fun _ => 1) =
      (.error (.valueError "context_path cannot be empty"), 0, []) := by
  refine ⟨rfl, ?_, ?_⟩
  · exact (requestJira_blank_path_rejected false 3 1 60 "https://x.test" "GET"
      " " none none (fun _ _ => .resp ⟨200, [], "", some (.dict [])⟩)
      (fun _ => 1)).1 rfl
  · exact (requestJira_blank_path_rejected false 3 1 60 "https://x.test" "GET"
      "" none none (fun _ _ => .resp ⟨200, [], "", some (.dict [])⟩)
      (fun _ => 1)).1 rfl

/-- C9, counterexample: URL building is not insensitive to a leading
separator on the base input - the base is only right-stripped
(`rstrip("/")`), so a leading separator survives into the output. -/
theorem buildUrl_leading_sep_on_base_changes_output :
    buildUrl "/https://x.test" "field" = .ok "/https://x.test/rest/api/3/field" ∧
    buildUrl "https://x.test" "field" = .ok "https://x.test/rest/api/3/field" ∧
    ("/https://x.test/rest/api/3/field" : String) ≠
      "https://x.test/rest/api/3/field" :=
  ⟨rfl, rfl, by decide⟩

/-- C9, amended: URL building is deterministic (definitional for this pure
function, stated as the trivial last conjunct) and insensitive to trailing
separators on the base and to leading/trailing separators on the path: for
every base, path with nonblank trim, and separator padding, the built URL is
unchanged.  The spec's example follows with padding `i = j = k = 1`. -/
theorem buildUrl_separator_insensitive (base path : String) (i j k : Nat)
    (hp : stripWs path ≠ "") :
    buildUrl (base ++ repSlash k) (repSlash i ++ path ++ repSlash j) =
      buildUrl base path ∧
    buildUrl base path = buildUrl base path := by
  refine ⟨?_, rfl⟩
  have hpad := stripWs_ne_empty_of_pad path i j hp
  show buildApiUrl (getJiraUrl (some (base ++ repSlash k)) none) _ =
    buildApiUrl (getJiraUrl (some base) none) _
  show buildApiUrl (rstripSlashes (base ++ repSlash k)) _ =
    buildApiUrl (rstripSlashes base) _
  rw [rstripSlashes_pad, buildApiUrl_ok _ _ hpad, buildApiUrl_ok _ _ hp,
    stripSlashes_pad]

/-- Witness for C9's amended statement: the spec's concrete example,
`build("https://x.test/", "/field/") = build("https://x.test", "field")`. -/
theorem buildUrl_separator_insensitive_witness :
    stripWs "field" ≠ "" ∧
    buildUrl "https://x.test/" "/field/" = buildUrl "https://x.test" "field" := by
  have h := (buildUrl_separator_insensitive "https://x.test" "field" 1 1 1
    (by decide)).1
  have e1 : "https://x.test" ++ repSlash 1 = "https://x.test/" := by decide
  have e2 : repSlash 1 ++ "field" ++ repSlash 1 = "/field/" := by decide
  rw [e1, e2] at h
  exact ⟨by decide, h⟩

/-! ### Claims C1, C2, C6, C10 -/

lemma requestLoop_step_resp (init maxd : ℚ) (transport : Nat → TransportStep)
    (jitter : Nat → ℚ) (a rc rem : Nat) (r : Response)
    (ht : transport a = .resp r) (h429 : r.status ≠ 429) :
    requestLoop false init maxd transport jitter a rc rem =
      match handleResponse r with
      | .ok v => (.ok (.value v), a + 1, [])
      | .error e => (.error (exceptWrap false e), a + 1, []) := by
  rw [requestLoop, ht]
  simp [HTTP_TOO_MANY_REQUESTS, h429]

lemma requestLoop_always429 (init maxd : ℚ) (transport : Nat → TransportStep)
    (jitter : Nat → ℚ) (r : Response) (hs : r.status = 429)
    (ht : ∀ n, transport n = .resp r) (rem : Nat) :
    ∀ a rc, (requestLoop false init maxd transport jitter a rc rem).1 =
        .error (.jiraRequestError ("Unexpected error: " ++ rateLimitMessage r)) ∧
      (requestLoop false init maxd transport jitter a rc rem).2.1 = a + rem + 1 := by
  induction rem with
  | zero =>
    intro a rc
    rw [requestLoop, ht a]
    simp [hs, HTTP_TOO_MANY_REQUESTS, exceptWrap, PyError.message]
  | succ n ih =>
    intro a rc
    rw [requestLoop, ht a]
    simp only [hs, HTTP_TOO_MANY_REQUESTS, Bool.false_eq_true, if_false,
      if_true, reduceIte]
    refine ⟨(ih (a + 1) (rc + 1)).1, ?_⟩
    rw [(ih (a + 1) (rc + 1)).2]
    omega

/-- C1 (code bug): with raw-response disabled and a transport that always
returns status 429, `send` does issue exactly `max_retries + 1` HTTP
attempts, but the error reaching the caller is of the `JiraRequestError`
kind, not the rate-limit kind: the `JiraRateLimitError` raised inside the
`try` block is caught by the blanket `except Exception` clause of
`_request_jira` and re-raised as
`JiraRequestError("Unexpected error: ...")`, contradicting the method's own
docstring.  The status code and body text survive only inside the wrapped
message. -/
theorem requestJira_always429_attempts_and_error_kind (maxR : Nat)
    (jitter : Nat → ℚ) :
    (requestJira false maxR 1 60 "https://x.test" "GET" "field" none none
        (fun _ _ => .resp ⟨429, [], "rate limited", none⟩) jitter).2.1 =
      maxR + 1 ∧
    (requestJira false maxR 1 60 "https://x.test" "GET" "field" none none
        (fun _ _ => .resp ⟨429, [], "rate limited", none⟩) jitter).1 =
      .error (.jiraRequestError
        ("Unexpected error: Max retries exceeded for rate-limited request. " ++
          "Jira API error: status_code=429, message=rate limited")) ∧
    ∀ m, (requestJira false maxR 1 60 "https://x.test" "GET" "field" none none
        (fun _ _ => .resp ⟨429, [], "rate limited", none⟩) jitter).1 ≠
      .error (.jiraRateLimitError m) := by
  have hb : buildApiUrl "https://x.test" "field" =
      .ok "https://x.test/rest/api/3/field" := rfl
  have hmsg : "Unexpected error: " ++
      rateLimitMessage ⟨429, [], "rate limited", none⟩ =
      "Unexpected error: Max retries exceeded for rate-limited request. " ++
        "Jira API error: status_code=429, message=rate limited" := by decide
  have h := requestLoop_always429 1 60
    ((fun _ _ => .resp ⟨429, [], "rate limited", none⟩)
      (sessionRequestArgs "GET" "https://x.test/rest/api/3/field" none none))
    jitter ⟨429, [], "rate limited", none⟩ rfl (fun _ => rfl) maxR 0 0
  refine ⟨?_, ?_, ?_⟩
  · show (requestLoop false 1 60 _ jitter 0 0 maxR).2.1 = maxR + 1
    rw [h.2]
    omega
  · show (requestLoop false 1 60 _ jitter 0 0 maxR).1 = _
    rw [h.1, hmsg]
  · intro m
    show (requestLoop false 1 60 _ jitter 0 0 maxR).1 ≠ _
    rw [h.1]
    simp

/-- C2, counterexample: a 429 response carrying only the secondary
`Beta-Retry-After` header (value `"7"`) does not produce a delay of 7
seconds; the retry loop of `_request_jira` consults only the primary
`Retry-After` header, so the delay is the jittered exponential backoff
(here `1` second with initial delay 1 and jitter draw 1). -/
theorem beta_retry_after_header_ignored :
    requestJira false 3 1 60 "https://x.test" "GET" "field" none none
      (fun _ n =>
        if n = 0 then
          .resp ⟨429, [("Beta-Retry-After", "7")], "slow down", none⟩
        else .resp ⟨200, [], "", some (.bool true)⟩) (fun _ => 1) =
      (.ok (.value (.bool true)), 2, [min ((1 : ℚ) * 2 ^ 0) 60 * 1]) ∧
    min ((1 : ℚ) * 2 ^ 0) 60 * 1 = 1 ∧ (1 : ℚ) ≠ 7 := by
  refine ⟨rfl, by norm_num, by norm_num⟩

/-- C2, amended: the delay for a 429 handled by the retry loop is computed
from the primary `Retry-After` header only: a present, parseable value is
used verbatim with no jitter (so `"2"` yields exactly 2 seconds); when the
header is absent the delay is the jittered exponential backoff, and the
secondary `Beta-Retry-After` header is not consulted by the loop (the
`_handle_rate_limiting` helper that would fall back to it has no callers). -/
theorem retry_delay_primary_header_only (init maxd jitter : ℚ) (rc : Nat)
    (h : String) (q : ℚ) (bv : String) :
    (h ≠ "" → pyFloat? h = some q →
      calculateRetryDelay init maxd rc (some h) jitter = q) ∧
    calculateRetryDelay init maxd rc (some "2") jitter = 2 ∧
    headersGet [(BETA_RETRY_AFTER_HEADER, bv)] RETRY_AFTER_HEADER = none ∧
    calculateRetryDelay init maxd rc none jitter =
      min (init * 2 ^ rc) maxd * jitter := by
  refine ⟨?_, ?_, rfl, rfl⟩
  · intro h1 h2
    simp [calculateRetryDelay, h1, h2]
  · have h0 : pyFloat? "2" = some ((1 : ℚ) * ((digitsToNat ['2'] : ℕ) : ℚ)) :=
      rfl
    have h1 : digitsToNat ['2'] = 2 := rfl
    have hp : pyFloat? "2" = some 2 := by
      rw [h0, h1]
      norm_num
    simp [calculateRetryDelay, hp]

/-- Witness for C2's amended statement: the primary header value `"2.5"`
parses and is used verbatim as the delay even with a non-unit jitter draw. -/
theorem retry_delay_primary_header_only_witness :
    pyFloat? "2.5" = some (5 / 2) ∧
    calculateRetryDelay 1 60 0 (some "2.5") (9 / 10) = 5 / 2 := by
  have h0 : pyFloat? "2.5" = some ((1 : ℚ) *
      (((digitsToNat ['2'] : ℕ) : ℚ) +
        ((digitsToNat ['5'] : ℕ) : ℚ) / (10 : ℚ) ^ (['5'].length))) := rfl
  have h2 : digitsToNat ['2'] = 2 := rfl
  have h5 : digitsToNat ['5'] = 5 := rfl
  have hp : pyFloat? "2.5" = some (5 / 2) := by
    rw [h0, h2, h5]
    norm_num
  exact ⟨hp, (retry_delay_primary_header_only 1 60 (9 / 10) 0 "2.5" (5 / 2)
    "7").1 (by decide) hp⟩

/-- C6: with raw-response disabled, a 200 response yields its decoded JSON
body as-is, a 204 response yields the no-payload success sentinel (`True`),
and any other non-429 status fails on the first attempt - no retry - with a
`JiraRequestError` whose message carries the status code and the body text
(inside the "Unexpected error:" wrapping applied by the blanket except
clause of `_request_jira`). -/
theorem requestJira_status_classification (maxR : Nat) (init maxd : ℚ)
    (jitter : Nat → ℚ) (r : Response) (j : PyVal) :
    (r.status = 200 → r.jsonBody = some j →
      requestJira false maxR init maxd "https://x.test" "GET" "field" none none
        (fun _ _ => .resp r) jitter = (.ok (.value j), 1, [])) ∧
    (r.status = 204 →
      requestJira false maxR init maxd "https://x.test" "GET" "field" none none
        (fun _ _ => .resp r) jitter = (.ok (.value (.bool true)), 1, [])) ∧
    (r.status ≠ 200 → r.status ≠ 204 → r.status ≠ 429 →
      requestJira false maxR init maxd "https://x.test" "GET" "field" none none
        (fun _ _ => .resp r) jitter =
        (.error (.jiraRequestError
          ("Unexpected error: Jira API error: status_code=" ++
            toString r.status ++ ", message=" ++ r.text)), 1, [])) := by
  have hb : buildApiUrl "https://x.test" "field" =
      .ok "https://x.test/rest/api/3/field" := rfl
  refine ⟨?_, ?_, ?_⟩
  · intro h0 hj
    show requestLoop false init maxd _ jitter 0 0 maxR = _
    rw [requestLoop_step_resp init maxd _ jitter 0 0 maxR r rfl (by omega)]
    simp [handleResponse, HTTP_OK, h0, hj]
  · intro h4
    show requestLoop false init maxd _ jitter 0 0 maxR = _
    rw [requestLoop_step_resp init maxd _ jitter 0 0 maxR r rfl (by omega)]
    simp [handleResponse, HTTP_OK, HTTP_NO_CONTENT, h4]
  · intro h0 h4 h9
    show requestLoop false init maxd _ jitter 0 0 maxR = _
    rw [requestLoop_step_resp init maxd _ jitter 0 0 maxR r rfl h9]
    simp [handleResponse, HTTP_OK, HTTP_NO_CONTENT, h0, h4, exceptWrap,
      PyError.message, String.append_assoc]
    rw [← String.append_assoc,
      (by decide : ("Unexpected error: " : String) ++
        "Jira API error: status_code=" =
        "Unexpected error: Jira API error: status_code=")]

/-- Witness for C6 at the spec's concrete responses: 200 with `{"a": 1}`,
204, and 404 with body "not found". -/
theorem requestJira_status_classification_witness :
    requestJira false 3 1 60 "https://x.test" "GET" "field" none none
      (fun _ _ => .resp ⟨200, [], "", some (.dict [("a", .int 1)])⟩)
      (fun _ => 1) = (.ok (.value (.dict [("a", .int 1)])), 1, []) ∧
    requestJira false 3 1 60 "https://x.test" "GET" "field" none none
      (fun _ _ => .resp ⟨204, [], "", none⟩) (fun _ => 1) =
      (.ok (.value (.bool true)), 1, []) ∧
    requestJira false 3 1 60 "https://x.test" "GET" "field" none none
      (fun _ _ => .resp ⟨404, [], "not found", none⟩) (fun _ => 1) =
      (.error (.jiraRequestError
        ("Unexpected error: Jira API error: status_code=404, " ++
          "message=not found")), 1, []) := by
  refine ⟨?_, ?_, ?_⟩
  · exact (requestJira_status_classification 3 1 60 (fun _ => 1)
      ⟨200, [], "", some (.dict [("a", .int 1)])⟩ (.dict [("a", .int 1)])).1
      rfl rfl
  · exact (requestJira_status_classification 3 1 60 (fun _ => 1)
      ⟨204, [], "", none⟩ (.bool true)).2.1 rfl
  · have h := (requestJira_status_classification 3 1 60 (fun _ => 1)
      ⟨404, [], "not found", none⟩ (.bool true)).2.2 (by decide) (by decide)
      (by decide)
    rw [h]
    have : "Unexpected error: Jira API error: status_code=" ++
        toString (404 : Nat) ++ ", message=" ++ "not found" =
        "Unexpected error: Jira API error: status_code=404, " ++
          "message=not found" := by decide
    rw [this]

/-- C10: the no-payload success sentinel for a 204 response is the boolean
`True`, the very value returned for a 200 response whose decoded JSON body
is the literal `true`; a caller of `send` therefore cannot distinguish the
two outcomes. -/
theorem noContent_sentinel_equals_json_true (maxR : Nat) (init maxd : ℚ)
    (jitter : Nat → ℚ) (r200 r204 : Response) (h0 : r200.status = 200)
    (hj : r200.jsonBody = some (.bool true)) (h4 : r204.status = 204) :
    handleResponse r204 = .ok (.bool true) ∧
    handleResponse r200 = handleResponse r204 ∧
    requestJira false maxR init maxd "https://x.test" "GET" "field" none none
        (fun _ _ => .resp r200) jitter =
      requestJira false maxR init maxd "https://x.test" "GET" "field" none none
        (fun _ _ => .resp r204) jitter := by
  have hh4 : handleResponse r204 = .ok (.bool true) := by
    simp [handleResponse, HTTP_OK, HTTP_NO_CONTENT, h4]
  have hh0 : handleResponse r200 = .ok (.bool true) := by
    simp [handleResponse, HTTP_OK, h0, hj]
  refine ⟨hh4, by rw [hh0, hh4], ?_⟩
  show requestLoop false init maxd _ jitter 0 0 maxR =
    requestLoop false init maxd _ jitter 0 0 maxR
  rw [requestLoop_step_resp init maxd _ jitter 0 0 maxR r200 rfl (by omega),
    requestLoop_step_resp init maxd _ jitter 0 0 maxR r204 rfl (by omega),
    hh0, hh4]

/-- Witness for C10 at concrete responses: a 200 response with JSON body
`true` and a bodyless 204 response produce equal outcomes. -/
theorem noContent_sentinel_equals_json_true_witness :
    requestJira false 3 1 60 "https://x.test" "GET" "field" none none
        (fun _ _ => .resp ⟨200, [], "true", some (.bool true)⟩) (fun _ => 1) =
      requestJira false 3 1 60 "https://x.test" "GET" "field" none none
        (fun _ _ => .resp ⟨204, [], "", none⟩) (fun _ => 1) :=
  (noContent_sentinel_equals_json_true 3 1 60 (fun _ => 1)
    ⟨200, [], "true", some (.bool true)⟩ ⟨204, [], "", none⟩ rfl rfl rfl).2.2

/-! ### Claims C7 and C8 -/

/-- C7, counterexample: a syntactically invalid url passed to the
constructor fails with the pydantic validation error raised by
`@validate_call`, which is not the `JiraAuthenticationError` kind; the
claim that all constructor-input failures share the single
AuthenticationError kind is therefore false. -/
theorem invalid_url_raises_validation_not_auth :
    jiraBaseInit (some "not a url") (some "user@example.com") (some "token")
      none none none =
      .error (.pydanticValidationError "jira_url is not a valid HTTP URL") ∧
    isAuthenticationErrorResult
      (jiraBaseInit (some "not a url") (some "user@example.com") (some "token")
        none none none) = false :=
  ⟨rfl, rfl⟩

/-- C7, amended: all credential failures are raised at construction time,
but under two distinct kinds: a provided url that is not a syntactically
valid absolute URL, or a provided user that is not email-shaped, fails with
the pydantic validation error of the `@validate_call` wrapper, while
credentials that are empty after environment fallback fail with
`JiraAuthenticationError`; when the arguments validate and all three
resolved credentials are non-empty, construction succeeds. -/
theorem jiraBaseInit_error_kinds (ju jus jt eu eus et : Option String) :
    ((! ju.all isValidHttpUrl) = true →
      jiraBaseInit ju jus jt eu eus et =
        .error (.pydanticValidationError "jira_url is not a valid HTTP URL")) ∧
    (ju.all isValidHttpUrl = true → (! jus.all isValidEmail) = true →
      jiraBaseInit ju jus jt eu eus et =
        .error (.pydanticValidationError "jira_user is not a valid email address")) ∧
    (ju.all isValidHttpUrl = true → jus.all isValidEmail = true →
      (getJiraUrl ju eu == "" || optStrFalsy (pyOrStr jus eus) ||
        optStrFalsy (pyOrStr jt et)) = true →
      jiraBaseInit ju jus jt eu eus et =
        .error (.jiraAuthenticationError
          ("All JIRA credentials must be provided either as parameters or " ++
            "through environment variables (JIRA_URL, JIRA_USER, JIRA_API_TOKEN)"))) ∧
    (ju.all isValidHttpUrl = true → jus.all isValidEmail = true →
      (getJiraUrl ju eu == "" || optStrFalsy (pyOrStr jus eus) ||
        optStrFalsy (pyOrStr jt et)) = false →
      jiraBaseInit ju jus jt eu eus et =
        .ok ⟨getJiraUrl ju eu, (pyOrStr jus eus).getD "",
          (pyOrStr jt et).getD ""⟩) := by
  refine ⟨?_, ?_, ?_, ?_⟩
  · intro h1
    simp [jiraBaseInit, h1]
  · intro h1 h2
    simp [jiraBaseInit, h1, h2]
  · intro h1 h2 h3
    simp only [jiraBaseInit, h1, h2, h3, Bool.not_true, Bool.false_eq_true,
      if_false, if_true, reduceIte]
  · intro h1 h2 h3
    simp only [jiraBaseInit, h1, h2, h3, Bool.not_true, Bool.false_eq_true,
      if_false, if_true, reduceIte]

/-- Witness for C7's amended statement: an invalid user fails with the
validation kind, a missing token (no fallback) fails with the
authentication kind, and full credentials succeed. -/
theorem jiraBaseInit_error_kinds_witness :
    jiraBaseInit (some "https://x.test") (some "not-an-email") (some "tok")
      none none none =
      .error (.pydanticValidationError "jira_user is not a valid email address") ∧
    jiraBaseInit (some "https://x.test") (some "user@example.com") none
      none none none =
      .error (.jiraAuthenticationError
        ("All JIRA credentials must be provided either as parameters or " ++
          "through environment variables (JIRA_URL, JIRA_USER, JIRA_API_TOKEN)")) ∧
    jiraBaseInit (some "https://x.test") (some "user@example.com") (some "tok")
      none none none =
      .ok ⟨"https://x.test", "user@example.com", "tok"⟩ := by
  refine ⟨?_, ?_, ?_⟩
  · exact (jiraBaseInit_error_kinds (some "https://x.test")
      (some "not-an-email") (some "tok") none none none).2.1 (by decide)
      (by decide)
  · exact (jiraBaseInit_error_kinds (some "https://x.test")
      (some "user@example.com") none none none none).2.2.1 (by decide)
      (by decide) (by decide)
  · have h := (jiraBaseInit_error_kinds (some "https://x.test")
      (some "user@example.com") (some "tok") none none none).2.2.2 (by decide)
      (by decide) (by decide)
    rw [h]
    rfl

/-- C8: leaving a scoped client context leaves the session handle absent on
every exit path, normal or exceptional; `close` is idempotent and a no-op
when the handle is already absent; and after `close` a subsequent acquire
stores a fresh session distinct from the previously live one. -/
theorem session_lifecycle (c : SessionState)
    (body : Nat → SessionState → Except String PyVal × SessionState)
    (h : Nat) :
    (withClient c body).2.session = none ∧
    closeSession (closeSession c) = closeSession c ∧
    (c.session = none → closeSession c = c) ∧
    (SessionWF c → c.session = some h →
      (ensureSession (closeSession c)).1 ≠ h ∧
      (ensureSession (closeSession c)).2.session =
        some (ensureSession (closeSession c)).1) := by
  have hclose : ∀ x : SessionState, (closeSession x).session = none := by
    intro x
    rcases hx : x.session with _ | s <;> simp [closeSession, hx]
  refine ⟨?_, ?_, ?_, ?_⟩
  · show (closeSession (body (ensureSession c).1 (ensureSession c).2).2).session = none
    exact hclose _
  · rcases hx : c.session with _ | s <;> simp [closeSession, hx]
  · intro hno
    simp [closeSession, hno]
  · intro hwf hs
    have hlt : h < c.nextId := hwf h hs
    have hcs : closeSession c = ⟨none, c.nextId⟩ := by
      simp [closeSession, hs]
    rw [hcs]
    refine ⟨?_, rfl⟩
    show c.nextId ≠ h
    omega

/-- Witness for C8: a client whose live session is numbered 0 ends a scope
whose body raises with the handle absent, and re-acquiring after `close`
yields a session distinct from session 0. -/
theorem session_lifecycle_witness :
    (withClient ⟨some 0, 1⟩ (fun _ s => (.error "boom", s))).2.session = none ∧
    (ensureSession (closeSession ⟨some 0, 1⟩)).1 ≠ 0 := by
  have h := session_lifecycle ⟨some 0, 1⟩ (fun _ s => (.error "boom", s)) 0
  refine ⟨h.1, ?_⟩
  refine (h.2.2.2 ?_ rfl).1
  intro k hk
  have hk' : (0 : Nat) = k := by
    injection hk
  show k < 1
  omega

end Jira2py
